import Mathlib

/-!
Shallow embedding of `src/includes/loader.cpp` (a libbfd-based binary
loader), together with theorems checking the specification's claims.

The loader consumes libbfd only through a query interface (open, format
check, flavour query, machine-type query, symbol-table size query,
canonicalize, close).  We model one candidate file as an oracle record
`BfdFile` holding the answers the library would give for that file, and
a failed `bfd_openr` as the absence of such a record.  Observable side
effects (library initialization, acquiring the handle, `bfd_close`,
diagnostics printed to stderr) are recorded as an ordered event trace so
that resource and one-time-initialization properties can be stated.
-/

namespace BinInfo

/-- Container flavours reported by `bfd_get_flavour` / `xvec->flavour`.
Besides the three the code names (`elf`, `coff`, `unknown`) we keep two
further concrete flavours so that the `default:` arm of the switch is
inhabited. -/
inductive BfdFlavour where
  | elf
  | coff
  | unknown
  | machO
  | msdos
deriving DecidableEq

/-- `bfd_mach_i386_i386` from `bfd.h`. -/
def bfd_mach_i386_i386 : Nat := 1

/-- `bfd_mach_x86_64` from `bfd.h`. -/
def bfd_mach_x86_64 : Nat := 64

/-- `BSF_FUNCTION` from `bfd.h`: flag bit marking function symbols. -/
def BSF_FUNCTION : Nat := 16

/-- `Symbol::SymbolType` from the loader's header (the header is not in
`src/`; the enum values are those the code uses). -/
inductive SymbolType where
  | SYM_TYPE_UKN
  | SYM_TYPE_FUN
deriving DecidableEq

/-- `Binary::BinaryType` from the loader's header. -/
inductive BinaryType where
  | BIN_TYPE_AUTO
  | BIN_TYPE_ELF
  | BIN_TYPE_PE
deriving DecidableEq

/-- `Binary::BinaryArch` from the loader's header. -/
inductive BinaryArch where
  | ARCH_NONE
  | ARCH_X86
deriving DecidableEq

/-- One symbol of the unified model (`Symbol` in the loader's header):
a type tag, a name copied out of library storage, and an address. -/
structure Symbol where
  type : SymbolType
  name : String
  addr : Nat
deriving DecidableEq

/-- One section of the unified model (`Section` in the loader's header,
fields per the data-model section of the specification). -/
structure Section where
  name  : String
  vma   : Nat
  size  : Nat
  perms : Nat
deriving DecidableEq

/-- The unified `Binary` model.  The C++ object is created empty by the
caller and populated field by field; we model each scalar field as an
`Option`, `none` meaning "not yet assigned", so that partial population
is observable. -/
structure Binary where
  filename : Option String
  entry    : Option Nat
  type     : Option BinaryType
  type_str : Option String
  arch     : Option BinaryArch
  arch_str : Option String
  bits     : Option Nat
  symbols  : List Symbol
  sections : List Section
deriving DecidableEq

/-- The empty `Binary` a caller hands to the loader. -/
def Binary.empty : Binary :=
  { filename := none, entry := none, type := none, type_str := none
  , arch := none, arch_str := none, bits := none, symbols := [], sections := [] }

/-- Tags for the distinct `fprintf(stderr, ...)` sites of the loader;
each failure path prints exactly one of these. -/
inductive Diag where
  | openError          -- "Failed to open binary"
  | formatError        -- "does not appear to be an executable"
  | unrecognizedFormat -- "Unrecognized format for binary"
  | symtabSizeError    -- "Failed to read symtab"
  | outOfMemory        -- "Out of memory"
  | symtabReadError    -- "Failed to read symbols table"
  | unsupportedType    -- "unsupported binary type"
  | unsupportedArch    -- "unsupported architecture"
deriving DecidableEq

/-- Observable events of one run: library initialization (`bfd_init`),
a `bfd_openr` call (`ok` = whether a handle was acquired), a `bfd_close`
call, and a diagnostic printed to stderr. -/
inductive Event where
  | initLib
  | openr (ok : Bool)
  | close
  | diag (d : Diag)
deriving DecidableEq

/-- One entry of the raw canonicalized symbol table, as libbfd reports
it: `flags` (`asymbol->flags`), `name` and resolved value
(`bfd_asymbol_value`). -/
structure BfdSymInfo where
  flags : Nat
  name  : String
  value : Nat
deriving DecidableEq

/-- Oracle for one successfully `bfd_openr`-ed file: the answers libbfd
would give to every query the loader makes on that handle.
`sectionsResult`, `sections` and `dynSyms` stand for the behaviour of
`load_sections_bfd` and `load_dynsym_bfd`, which the orchestrator calls
but whose bodies are TODO upstream (see their definitions below). -/
structure BfdFile where
  isObject         : Bool                      -- bfd_check_format(bfd_h, bfd_object)
  flavour          : BfdFlavour                -- bfd_get_flavour / xvec->flavour
  xvecName         : String                    -- bfd_h->xvec->name
  startAddress     : Nat                       -- bfd_get_start_address
  machName         : String                    -- bfd_info->printable_name
  mach             : Nat                       -- bfd_info->mach
  symtabUpperBound : Int                       -- bfd_get_symtab_upper_bound
  mallocOk         : Bool                      -- whether malloc(n) succeeds
  canonSymtab      : Option (List BfdSymInfo)  -- bfd_canonicalize_symtab (none: < 0)
  sectionsResult   : Int                       -- return value of load_sections_bfd
  sections         : List Section              -- sections load_sections_bfd appends
  dynSyms          : List Symbol               -- symbols load_dynsym_bfd appends
deriving DecidableEq

/-- Result of `open_bfd`: the handle (or `NULL`), the updated
process-wide `bfd_init_flag`, and the events the call emitted. -/
structure OpenOut where
  handle   : Option BfdFile
  initFlag : Bool
  events   : List Event
deriving DecidableEq

/-- `open_bfd` (loader.cpp): one-time `bfd_init` guarded by the static
`bfd_init_flag`; `bfd_openr`; `bfd_check_format(bfd_object)`; reject
`bfd_target_unknown_flavour`.  The `file` argument is the oracle for the
path being opened (`none` = `bfd_openr` returns `NULL`).  Note that the
failure paths return `NULL` without closing the handle, exactly as the
source does. -/
def open_bfd (initFlag : Bool) (file : Option BfdFile) : OpenOut :=
  let initEvs : List Event := if initFlag then [] else [Event.initLib]
  match file with
  | none => ⟨none, true, initEvs ++ [Event.openr false, Event.diag Diag.openError]⟩
  | some f =>
      if !f.isObject then
        ⟨none, true, initEvs ++ [Event.openr true, Event.diag Diag.formatError]⟩
      else if f.flavour = BfdFlavour.unknown then
        ⟨none, true, initEvs ++ [Event.openr true, Event.diag Diag.unrecognizedFormat]⟩
      else
        ⟨some f, true, initEvs ++ [Event.openr true]⟩

/-- Result of `load_symbols_bfd`: status code, updated `Binary`, emitted
events. -/
structure SymOut where
  ret    : Int
  bin    : Binary
  events : List Event
deriving DecidableEq

/-- The body of the filtering loop of `load_symbols_bfd`: for each raw
entry whose flags have `BSF_FUNCTION` set, push one normalized `Symbol`
(type `SYM_TYPE_FUN`, name copied, `addr` = resolved value) onto
`bin.symbols`; all other entries are skipped. -/
def symLoop : List BfdSymInfo → Binary → Binary
  | [], bin => bin
  | s :: rest, bin =>
      if s.flags.land BSF_FUNCTION ≠ 0 then
        symLoop rest
          { bin with symbols :=
              bin.symbols ++ [{ type := SymbolType.SYM_TYPE_FUN, name := s.name, addr := s.value }] }
      else
        symLoop rest bin

/-- `load_symbols_bfd` (loader.cpp): query the symbol-table size; a
negative size fails; a nonzero size allocates, canonicalizes (failure
of either also fails) and runs the filter loop; zero size skips the
block.  Every path frees the raw table and returns the status code. -/
def load_symbols_bfd (f : BfdFile) (bin : Binary) : SymOut :=
  if f.symtabUpperBound < 0 then
    ⟨-1, bin, [Event.diag Diag.symtabSizeError]⟩
  else if f.symtabUpperBound ≠ 0 then
    if !f.mallocOk then
      ⟨-1, bin, [Event.diag Diag.outOfMemory]⟩
    else
      match f.canonSymtab with
      | none => ⟨-1, bin, [Event.diag Diag.symtabReadError]⟩
      | some tbl => ⟨0, symLoop tbl bin, []⟩
  else
    ⟨0, bin, []⟩

/-- Modelled from the spec: `load_dynsym_bfd` is called by the
orchestrator but its body is TODO upstream (not in `src/`).  Per the
specification's symbol-extractor contract it appends the dynamic
function symbols (oracle field `dynSyms`) and absence of a dynamic
table is not an error. -/
def load_dynsym_bfd (f : BfdFile) (bin : Binary) : SymOut :=
  ⟨0, { bin with symbols := bin.symbols ++ f.dynSyms }, []⟩

/-- Modelled from the spec: `load_sections_bfd` is called by the
orchestrator but its body is TODO upstream (not in `src/`).  Per the
specification's section-extractor contract it either fails (negative
status, nothing appended) or appends every enumerated section; the
oracle fields `sectionsResult` and `sections` supply its behaviour. -/
def load_sections_bfd (f : BfdFile) (bin : Binary) : SymOut :=
  if f.sectionsResult < 0 then
    ⟨f.sectionsResult, bin, []⟩
  else
    ⟨f.sectionsResult, { bin with sections := bin.sections ++ f.sections }, []⟩

/-- Result of `load_binary_bfd` / `load_binary`: status code, the
caller's `Binary` after the call (the C++ mutates it through a
pointer), the updated init flag and the event trace. -/
structure LoadOut where
  ret      : Int
  bin      : Binary
  initFlag : Bool
  events   : List Event
deriving DecidableEq

/-- `load_binary_bfd` (loader.cpp): open through `open_bfd`; set
`filename`, `entry`, `type_str`; switch on the flavour (`elf` → `ELF`,
`coff` → `PE`, default → fail); set `arch_str`; switch on the machine
code (`bfd_mach_i386_i386` → X86/32, `bfd_mach_x86_64` → X86/64,
default → fail); run `load_symbols_bfd` and `load_dynsym_bfd` ignoring
their status; fail if `load_sections_bfd` is negative.  The `cleanup`
label closes the handle exactly when it is non-NULL; note that fields
assigned before a failing stage stay assigned, as in the source. -/
def load_binary_bfd (initFlag : Bool) (fname : String) (file : Option BfdFile)
    (bin : Binary) (_type : BinaryType) : LoadOut :=
  let o := open_bfd initFlag file
  match o.handle with
  | none => ⟨-1, bin, o.initFlag, o.events⟩
  | some f =>
      let bin := { bin with
        filename := some fname
        entry    := some f.startAddress
        type_str := some f.xvecName }
      match f.flavour with
      | BfdFlavour.elf =>
          loadBinaryArch o f { bin with type := some BinaryType.BIN_TYPE_ELF }
      | BfdFlavour.coff =>
          loadBinaryArch o f { bin with type := some BinaryType.BIN_TYPE_PE }
      | _ =>
          ⟨-1, bin, o.initFlag, o.events ++ [Event.diag Diag.unsupportedType, Event.close]⟩
where
  /-- continuation of `load_binary_bfd` after the flavour switch -/
  loadBinaryArch (o : OpenOut) (f : BfdFile) (bin : Binary) : LoadOut :=
    let bin := { bin with arch_str := some f.machName }
    if f.mach = bfd_mach_i386_i386 then
      loadBinaryTail o f { bin with arch := some BinaryArch.ARCH_X86, bits := some 32 }
    else if f.mach = bfd_mach_x86_64 then
      loadBinaryTail o f { bin with arch := some BinaryArch.ARCH_X86, bits := some 64 }
    else
      ⟨-1, bin, o.initFlag, o.events ++ [Event.diag Diag.unsupportedArch, Event.close]⟩
  /-- continuation of `load_binary_bfd` after the machine switch:
  symbol loading (status ignored), dynamic symbols (status ignored),
  sections (negative status is fatal), then cleanup. -/
  loadBinaryTail (o : OpenOut) (f : BfdFile) (bin : Binary) : LoadOut :=
    let s := load_symbols_bfd f bin
    let d := load_dynsym_bfd f s.bin
    let sec := load_sections_bfd f d.bin
    if sec.ret < 0 then
      ⟨-1, sec.bin, o.initFlag, o.events ++ s.events ++ d.events ++ sec.events ++ [Event.close]⟩
    else
      ⟨0, sec.bin, o.initFlag, o.events ++ s.events ++ d.events ++ sec.events ++ [Event.close]⟩

/-- `load_binary` (loader.cpp): the public entry point, a direct call to
`load_binary_bfd`. -/
def load_binary (initFlag : Bool) (fname : String) (file : Option BfdFile)
    (bin : Binary) (type : BinaryType) : LoadOut :=
  load_binary_bfd initFlag fname file bin type

/-- `unload_binary` (loader.cpp): a no-op placeholder. -/
def unload_binary : Unit := ()

/-- A sequence of `open_bfd` calls threading the process-wide
`bfd_init_flag` (initially false at process start), concatenating the
event traces. -/
def runOpens : Bool → List (Option BfdFile) → List Event
  | _, [] => []
  | flag, f :: rest =>
      let o := open_bfd flag f
      o.events ++ runOpens o.initFlag rest

/-- The subsequence of raw table entries flagged as function symbols, in
table order, each normalized to a `Symbol` — the specification's
description of what symbol extraction must produce. -/
def funcSyms (tbl : List BfdSymInfo) : List Symbol :=
  (tbl.filter fun s => s.flags.land BSF_FUNCTION != 0).map
    fun s => { type := SymbolType.SYM_TYPE_FUN, name := s.name, addr := s.value }

/-! ### Concrete oracle files used as witnesses and counterexamples -/

/-- A well-formed 64-bit x86 ELF executable with one function symbol
`main` and one data symbol, and readable sections. -/
def baseFile : BfdFile :=
  { isObject := true, flavour := BfdFlavour.elf, xvecName := "elf64-x86-64"
  , startAddress := 0x401020, machName := "i386:x86-64", mach := bfd_mach_x86_64
  , symtabUpperBound := 24, mallocOk := true
  , canonSymtab := some [⟨16, "main", 0x401000⟩, ⟨0, "data_obj", 0x601000⟩]
  , sectionsResult := 0
  , sections := [{ name := ".text", vma := 0x401000, size := 0x200, perms := 5 }]
  , dynSyms := [] }

/-- A file `bfd_openr` accepts but `bfd_check_format` rejects (e.g. a
plain text file). -/
def fileBadFormat : BfdFile := { baseFile with isObject := false }

/-- An object file of a recognized container but an unsupported machine
type (machine code 40, not i386 or x86-64). -/
def fileUnsupportedArch : BfdFile := { baseFile with mach := 40, machName := "arm" }

/-- An object file of a flavour that is neither ELF nor COFF. -/
def fileMachO : BfdFile := { baseFile with flavour := BfdFlavour.machO }

/-- A 32-bit i386 object file. -/
def fileI386 : BfdFile :=
  { baseFile with mach := bfd_mach_i386_i386, machName := "i386", xvecName := "elf32-i386" }

/-- A stripped binary: the symbol-table size query reports 0 bytes. -/
def fileStripped : BfdFile := { baseFile with symtabUpperBound := 0 }

/-- A binary whose symbol-table size query fails (negative result). -/
def fileSymFail : BfdFile := { baseFile with symtabUpperBound := -1 }

/-- A binary whose section extraction fails. -/
def fileSecFail : BfdFile := { baseFile with sectionsResult := -1 }

/-! ### Helper lemmas -/

theorem open_bfd_initFlag (flag : Bool) (file : Option BfdFile) :
    (open_bfd flag file).initFlag = true := by
  unfold open_bfd
  cases file with
  | none => rfl
  | some f =>
      dsimp only
      split
      · rfl
      · split <;> rfl

theorem open_bfd_success (flag : Bool) (f : BfdFile) (hobj : f.isObject = true)
    (hfl : f.flavour ≠ BfdFlavour.unknown) :
    (open_bfd flag (some f)) =
      ⟨some f, true, (if flag then [] else [Event.initLib]) ++ [Event.openr true]⟩ := by
  unfold open_bfd
  simp [hobj, hfl]

theorem symLoop_eq (tbl : List BfdSymInfo) (bin : Binary) :
    symLoop tbl bin = { bin with symbols := bin.symbols ++ funcSyms tbl } := by
  induction tbl generalizing bin with
  | nil => simp [symLoop, funcSyms]
  | cons s rest ih =>
      by_cases h : s.flags.land BSF_FUNCTION ≠ 0
      · rw [symLoop, if_pos h, ih]
        simp [funcSyms, List.filter_cons, h, List.append_assoc]
      · rw [symLoop, if_neg h, ih]
        simp only [ne_eq, not_not] at h
        simp [funcSyms, List.filter_cons, h]

theorem load_symbols_bfd_bin (f : BfdFile) (bin : Binary) :
    ∃ t, (load_symbols_bfd f bin).bin = { bin with symbols := bin.symbols ++ t } := by
  unfold load_symbols_bfd
  split
  · exact ⟨[], by simp⟩
  · split
    · split
      · exact ⟨[], by simp⟩
      · split
        · exact ⟨[], by simp⟩
        · rename_i tbl heq
          exact ⟨funcSyms tbl, by simp [symLoop_eq]⟩
    · exact ⟨[], by simp⟩

theorem load_sections_bfd_ret (f : BfdFile) (bin : Binary) :
    (load_sections_bfd f bin).ret = f.sectionsResult := by
  unfold load_sections_bfd
  split <;> rfl

theorem load_sections_bfd_bin (f : BfdFile) (bin : Binary) :
    ∃ t, (load_sections_bfd f bin).bin = { bin with sections := bin.sections ++ t } := by
  unfold load_sections_bfd
  split
  · exact ⟨[], by simp⟩
  · exact ⟨f.sections, rfl⟩

theorem loadBinaryTail_bin (o : OpenOut) (f : BfdFile) (bin : Binary) :
    ∃ syms secs,
      (load_binary_bfd.loadBinaryTail o f bin).bin =
        { bin with symbols := bin.symbols ++ syms, sections := bin.sections ++ secs } := by
  obtain ⟨t1, h1⟩ := load_symbols_bfd_bin f bin
  obtain ⟨t3, h3⟩ := load_sections_bfd_bin f (load_dynsym_bfd f (load_symbols_bfd f bin).bin).bin
  refine ⟨t1 ++ f.dynSyms, t3, ?_⟩
  simp only [load_binary_bfd.loadBinaryTail]
  split <;> · show (load_sections_bfd f (load_dynsym_bfd f (load_symbols_bfd f bin).bin).bin).bin = _
              rw [h3]; simp [load_dynsym_bfd, h1, List.append_assoc]

theorem loadBinaryTail_ret (o : OpenOut) (f : BfdFile) (bin : Binary) :
    (load_binary_bfd.loadBinaryTail o f bin).ret =
      if f.sectionsResult < 0 then -1 else 0 := by
  simp only [load_binary_bfd.loadBinaryTail, load_sections_bfd_ret]
  split <;> simp_all

theorem loadBinaryTail_type (o : OpenOut) (f : BfdFile) (bin : Binary) :
    ((load_binary_bfd.loadBinaryTail o f bin).bin).type = bin.type := by
  obtain ⟨s, c, h⟩ := loadBinaryTail_bin o f bin
  rw [h]

theorem loadBinaryTail_arch (o : OpenOut) (f : BfdFile) (bin : Binary) :
    ((load_binary_bfd.loadBinaryTail o f bin).bin).arch = bin.arch := by
  obtain ⟨s, c, h⟩ := loadBinaryTail_bin o f bin
  rw [h]

theorem loadBinaryTail_bits (o : OpenOut) (f : BfdFile) (bin : Binary) :
    ((load_binary_bfd.loadBinaryTail o f bin).bin).bits = bin.bits := by
  obtain ⟨s, c, h⟩ := loadBinaryTail_bin o f bin
  rw [h]

theorem loadBinaryTail_entry (o : OpenOut) (f : BfdFile) (bin : Binary) :
    ((load_binary_bfd.loadBinaryTail o f bin).bin).entry = bin.entry := by
  obtain ⟨s, c, h⟩ := loadBinaryTail_bin o f bin
  rw [h]

theorem loadBinaryArch_i386 (o : OpenOut) (f : BfdFile) (bin : Binary)
    (h : f.mach = bfd_mach_i386_i386) :
    load_binary_bfd.loadBinaryArch o f bin =
      load_binary_bfd.loadBinaryTail o f
        { bin with arch_str := some f.machName,
                   arch := some BinaryArch.ARCH_X86, bits := some 32 } := by
  simp only [load_binary_bfd.loadBinaryArch, h, if_pos]

theorem loadBinaryArch_x86_64 (o : OpenOut) (f : BfdFile) (bin : Binary)
    (h : f.mach = bfd_mach_x86_64) :
    load_binary_bfd.loadBinaryArch o f bin =
      load_binary_bfd.loadBinaryTail o f
        { bin with arch_str := some f.machName,
                   arch := some BinaryArch.ARCH_X86, bits := some 64 } := by
  simp only [load_binary_bfd.loadBinaryArch, h, bfd_mach_i386_i386, bfd_mach_x86_64]
  norm_num

theorem loadBinaryArch_other (o : OpenOut) (f : BfdFile) (bin : Binary)
    (h1 : f.mach ≠ bfd_mach_i386_i386) (h2 : f.mach ≠ bfd_mach_x86_64) :
    load_binary_bfd.loadBinaryArch o f bin =
      ⟨-1, { bin with arch_str := some f.machName }, o.initFlag,
       o.events ++ [Event.diag Diag.unsupportedArch, Event.close]⟩ := by
  simp only [load_binary_bfd.loadBinaryArch, if_neg h1, if_neg h2]

theorem load_binary_bfd_none (flag : Bool) (fname : String) (bin : Binary) (ty : BinaryType) :
    load_binary_bfd flag fname none bin ty =
      ⟨-1, bin, true,
       (if flag then [] else [Event.initLib]) ++ [Event.openr false, Event.diag Diag.openError]⟩ :=
  rfl

theorem load_binary_bfd_not_object (flag : Bool) (fname : String) (f : BfdFile)
    (bin : Binary) (ty : BinaryType) (hobj : f.isObject = false) :
    load_binary_bfd flag fname (some f) bin ty =
      ⟨-1, bin, true,
       (if flag then [] else [Event.initLib]) ++ [Event.openr true, Event.diag Diag.formatError]⟩ := by
  simp only [load_binary_bfd, open_bfd, hobj, Bool.not_false, if_pos]

theorem load_binary_bfd_unknown_flavour (flag : Bool) (fname : String) (f : BfdFile)
    (bin : Binary) (ty : BinaryType) (hobj : f.isObject = true)
    (hfl : f.flavour = BfdFlavour.unknown) :
    load_binary_bfd flag fname (some f) bin ty =
      ⟨-1, bin, true,
       (if flag then [] else [Event.initLib]) ++
         [Event.openr true, Event.diag Diag.unrecognizedFormat]⟩ := by
  simp only [load_binary_bfd, open_bfd, hobj, hfl, Bool.not_true, Bool.false_eq_true,
    if_neg, if_pos, ite_false, ite_true]

theorem load_binary_bfd_elf (flag : Bool) (fname : String) (f : BfdFile)
    (bin : Binary) (ty : BinaryType) (hobj : f.isObject = true)
    (hfl : f.flavour = BfdFlavour.elf) :
    load_binary_bfd flag fname (some f) bin ty =
      load_binary_bfd.loadBinaryArch (open_bfd flag (some f)) f
        { bin with filename := some fname, entry := some f.startAddress,
                   type_str := some f.xvecName, type := some BinaryType.BIN_TYPE_ELF } := by
  have hne : f.flavour ≠ BfdFlavour.unknown := by simp [hfl]
  simp only [load_binary_bfd, open_bfd_success flag f hobj hne, hfl]

theorem load_binary_bfd_coff (flag : Bool) (fname : String) (f : BfdFile)
    (bin : Binary) (ty : BinaryType) (hobj : f.isObject = true)
    (hfl : f.flavour = BfdFlavour.coff) :
    load_binary_bfd flag fname (some f) bin ty =
      load_binary_bfd.loadBinaryArch (open_bfd flag (some f)) f
        { bin with filename := some fname, entry := some f.startAddress,
                   type_str := some f.xvecName, type := some BinaryType.BIN_TYPE_PE } := by
  have hne : f.flavour ≠ BfdFlavour.unknown := by simp [hfl]
  simp only [load_binary_bfd, open_bfd_success flag f hobj hne, hfl]

theorem load_binary_bfd_other_flavour (flag : Bool) (fname : String) (f : BfdFile)
    (bin : Binary) (ty : BinaryType) (hobj : f.isObject = true)
    (h1 : f.flavour ≠ BfdFlavour.unknown) (h2 : f.flavour ≠ BfdFlavour.elf)
    (h3 : f.flavour ≠ BfdFlavour.coff) :
    load_binary_bfd flag fname (some f) bin ty =
      { ret := -1
      , bin := { bin with filename := some fname, entry := some f.startAddress,
                          type_str := some f.xvecName }
      , initFlag := true
      , events := ((if flag then [] else [Event.initLib]) ++ [Event.openr true]) ++
          [Event.diag Diag.unsupportedType, Event.close] } := by
  cases hfv : f.flavour with
  | elf => exact absurd hfv h2
  | coff => exact absurd hfv h3
  | unknown => exact absurd hfv h1
  | machO => simp only [load_binary_bfd, open_bfd_success flag f hobj h1, hfv]
  | msdos => simp only [load_binary_bfd, open_bfd_success flag f hobj h1, hfv]

theorem loadBinaryArch_type (o : OpenOut) (f : BfdFile) (bin : Binary) :
    ((load_binary_bfd.loadBinaryArch o f bin).bin).type = bin.type := by
  by_cases h1 : f.mach = bfd_mach_i386_i386
  · rw [loadBinaryArch_i386 o f bin h1, loadBinaryTail_type]
  · by_cases h2 : f.mach = bfd_mach_x86_64
    · rw [loadBinaryArch_x86_64 o f bin h2, loadBinaryTail_type]
    · rw [loadBinaryArch_other o f bin h1 h2]

theorem loadBinaryArch_success (o : OpenOut) (f : BfdFile) (bin : Binary)
    (h : (load_binary_bfd.loadBinaryArch o f bin).ret = 0) :
    ((load_binary_bfd.loadBinaryArch o f bin).bin).type = bin.type ∧
    ((load_binary_bfd.loadBinaryArch o f bin).bin).arch = some BinaryArch.ARCH_X86 ∧
    (((load_binary_bfd.loadBinaryArch o f bin).bin).bits = some 32 ∨
     ((load_binary_bfd.loadBinaryArch o f bin).bin).bits = some 64) ∧
    ((load_binary_bfd.loadBinaryArch o f bin).bin).entry = bin.entry := by
  by_cases h1 : f.mach = bfd_mach_i386_i386
  · rw [loadBinaryArch_i386 o f bin h1, loadBinaryTail_type, loadBinaryTail_arch,
      loadBinaryTail_bits, loadBinaryTail_entry]
    exact ⟨rfl, rfl, Or.inl rfl, rfl⟩
  · by_cases h2 : f.mach = bfd_mach_x86_64
    · rw [loadBinaryArch_x86_64 o f bin h2, loadBinaryTail_type, loadBinaryTail_arch,
        loadBinaryTail_bits, loadBinaryTail_entry]
      exact ⟨rfl, rfl, Or.inr rfl, rfl⟩
    · rw [loadBinaryArch_other o f bin h1 h2] at h
      simp at h

theorem loadBinaryArch_retCases (o : OpenOut) (f : BfdFile) (bin : Binary) :
    (load_binary_bfd.loadBinaryArch o f bin).ret = 0 ∨
    (load_binary_bfd.loadBinaryArch o f bin).ret = -1 := by
  by_cases h1 : f.mach = bfd_mach_i386_i386
  · rw [loadBinaryArch_i386 o f bin h1, loadBinaryTail_ret]
    split
    · exact Or.inr rfl
    · exact Or.inl rfl
  · by_cases h2 : f.mach = bfd_mach_x86_64
    · rw [loadBinaryArch_x86_64 o f bin h2, loadBinaryTail_ret]
      split
      · exact Or.inr rfl
      · exact Or.inl rfl
    · rw [loadBinaryArch_other o f bin h1 h2]
      exact Or.inr rfl

theorem open_bfd_false_events (file : Option BfdFile) :
    ∃ t, (open_bfd false file).events = Event.initLib :: t ∧
      t.count Event.initLib = 0 := by
  cases file with
  | none => exact ⟨[Event.openr false, Event.diag Diag.openError], rfl, rfl⟩
  | some f =>
      simp only [open_bfd]
      split
      · exact ⟨[Event.openr true, Event.diag Diag.formatError], rfl, rfl⟩
      · split
        · exact ⟨[Event.openr true, Event.diag Diag.unrecognizedFormat], rfl, rfl⟩
        · exact ⟨[Event.openr true], rfl, rfl⟩

theorem open_bfd_true_count (file : Option BfdFile) :
    (open_bfd true file).events.count Event.initLib = 0 := by
  cases file with
  | none => rfl
  | some f =>
      simp only [open_bfd]
      split
      · rfl
      · split <;> rfl

theorem runOpens_true_count (files : List (Option BfdFile)) :
    (runOpens true files).count Event.initLib = 0 := by
  induction files with
  | nil => rfl
  | cons f rest ih =>
      simp only [runOpens]
      rw [List.count_append, open_bfd_initFlag, ih, open_bfd_true_count]

/-! ### The claims -/

/-- Claim C1 (code bug): the specification requires the handle acquired by
the format probe to be released exactly once on every exit path, including
a failed format check inside the probe.  On the concrete input
`fileBadFormat` — a file `bfd_openr` opens but `bfd_check_format` rejects —
the load fails, the handle is acquired once (`openr true`), yet `bfd_close`
is never called: `open_bfd` returns NULL without closing, and the
orchestrator's cleanup skips the close because its `bfd_h` is NULL.  The
handle leaks, contradicting the claim. -/
theorem c1_format_check_failure_leaks_handle :
    (load_binary_bfd false "notes.txt" (some fileBadFormat) Binary.empty
        BinaryType.BIN_TYPE_AUTO).ret = -1 ∧
    (load_binary_bfd false "notes.txt" (some fileBadFormat) Binary.empty
        BinaryType.BIN_TYPE_AUTO).events.count (Event.openr true) = 1 ∧
    (load_binary_bfd false "notes.txt" (some fileBadFormat) Binary.empty
        BinaryType.BIN_TYPE_AUTO).events.count Event.close = 0 :=
  ⟨rfl, rfl, rfl⟩

/-- Claim C2, counterexample: on a load that fails because of an
unsupported architecture, the caller's `Binary` IS handed back partially
populated — `type` (and `entry`, `type_str`) are already assigned while
`arch` and `bits` are not — refuting the claim that a failing load never
leaves a partially populated `Binary` with the caller. -/
theorem c2_partial_binary_on_failure :
    (load_binary_bfd false "a.out" (some fileUnsupportedArch) Binary.empty
        BinaryType.BIN_TYPE_AUTO).ret = -1 ∧
    (load_binary_bfd false "a.out" (some fileUnsupportedArch) Binary.empty
        BinaryType.BIN_TYPE_AUTO).bin.type = some BinaryType.BIN_TYPE_ELF ∧
    (load_binary_bfd false "a.out" (some fileUnsupportedArch) Binary.empty
        BinaryType.BIN_TYPE_AUTO).bin.entry = some 0x401020 ∧
    (load_binary_bfd false "a.out" (some fileUnsupportedArch) Binary.empty
        BinaryType.BIN_TYPE_AUTO).bin.arch = none ∧
    (load_binary_bfd false "a.out" (some fileUnsupportedArch) Binary.empty
        BinaryType.BIN_TYPE_AUTO).bin.bits = none :=
  ⟨rfl, rfl, rfl, rfl, rfl⟩

/-- Claim C2, amended: on success the caller's `Binary` is fully
populated — `type`, `arch`, `bits` and `entry` are all set to valid
values; on failure the caller receives only the failure status code, but
the `Binary` may retain the fields assigned before the failing stage. -/
theorem c2_success_fully_populated (flag : Bool) (fname : String)
    (file : Option BfdFile) (bin : Binary) (ty : BinaryType)
    (h : (load_binary_bfd flag fname file bin ty).ret = 0) :
    ((load_binary_bfd flag fname file bin ty).bin.type = some BinaryType.BIN_TYPE_ELF ∨
     (load_binary_bfd flag fname file bin ty).bin.type = some BinaryType.BIN_TYPE_PE) ∧
    (load_binary_bfd flag fname file bin ty).bin.arch = some BinaryArch.ARCH_X86 ∧
    ((load_binary_bfd flag fname file bin ty).bin.bits = some 32 ∨
     (load_binary_bfd flag fname file bin ty).bin.bits = some 64) ∧
    (load_binary_bfd flag fname file bin ty).bin.entry ≠ none := by
  cases file with
  | none =>
      rw [load_binary_bfd_none] at h
      simp at h
  | some f =>
      cases hobj : f.isObject with
      | false =>
          rw [load_binary_bfd_not_object flag fname f bin ty hobj] at h
          simp at h
      | true =>
          cases hfv : f.flavour with
          | unknown =>
              rw [load_binary_bfd_unknown_flavour flag fname f bin ty hobj hfv] at h
              simp at h
          | machO =>
              rw [load_binary_bfd_other_flavour flag fname f bin ty hobj
                (by simp [hfv]) (by simp [hfv]) (by simp [hfv])] at h
              simp at h
          | msdos =>
              rw [load_binary_bfd_other_flavour flag fname f bin ty hobj
                (by simp [hfv]) (by simp [hfv]) (by simp [hfv])] at h
              simp at h
          | elf =>
              rw [load_binary_bfd_elf flag fname f bin ty hobj hfv] at h ⊢
              obtain ⟨ht, ha, hb, he⟩ := loadBinaryArch_success _ _ _ h
              rw [ht, ha, he]
              exact ⟨Or.inl rfl, rfl, hb, by simp⟩
          | coff =>
              rw [load_binary_bfd_coff flag fname f bin ty hobj hfv] at h ⊢
              obtain ⟨ht, ha, hb, he⟩ := loadBinaryArch_success _ _ _ h
              rw [ht, ha, he]
              exact ⟨Or.inr rfl, rfl, hb, by simp⟩

/-- Witness for `c2_success_fully_populated` at a concrete successful
load of a 64-bit x86 ELF file. -/
theorem c2_success_fully_populated_witness :
    (load_binary_bfd false "a.out" (some baseFile) Binary.empty
        BinaryType.BIN_TYPE_AUTO).ret = 0 ∧
    (((load_binary_bfd false "a.out" (some baseFile) Binary.empty
          BinaryType.BIN_TYPE_AUTO).bin.type = some BinaryType.BIN_TYPE_ELF ∨
      (load_binary_bfd false "a.out" (some baseFile) Binary.empty
          BinaryType.BIN_TYPE_AUTO).bin.type = some BinaryType.BIN_TYPE_PE) ∧
     (load_binary_bfd false "a.out" (some baseFile) Binary.empty
         BinaryType.BIN_TYPE_AUTO).bin.arch = some BinaryArch.ARCH_X86 ∧
     ((load_binary_bfd false "a.out" (some baseFile) Binary.empty
          BinaryType.BIN_TYPE_AUTO).bin.bits = some 32 ∨
      (load_binary_bfd false "a.out" (some baseFile) Binary.empty
          BinaryType.BIN_TYPE_AUTO).bin.bits = some 64) ∧
     (load_binary_bfd false "a.out" (some baseFile) Binary.empty
         BinaryType.BIN_TYPE_AUTO).bin.entry ≠ none) :=
  ⟨rfl, c2_success_fully_populated false "a.out" (some baseFile) Binary.empty
      BinaryType.BIN_TYPE_AUTO rfl⟩

/-- Claim C3: for every opened handle (object file of a supported
container flavour), the architecture stage maps machine code
`bfd_mach_i386_i386` to `(ARCH_X86, 32)` and `bfd_mach_x86_64` to
`(ARCH_X86, 64)`, and any other machine code makes the whole load fail
(status −1) with the unsupported-architecture diagnostic, leaving
`arch` and `bits` exactly as they were — no default is substituted. -/
theorem c3_arch_resolver_mapping (flag : Bool) (fname : String) (f : BfdFile)
    (bin : Binary) (ty : BinaryType)
    (hobj : f.isObject = true)
    (hflav : f.flavour = BfdFlavour.elf ∨ f.flavour = BfdFlavour.coff) :
    (f.mach = bfd_mach_i386_i386 →
       (load_binary_bfd flag fname (some f) bin ty).bin.arch = some BinaryArch.ARCH_X86 ∧
       (load_binary_bfd flag fname (some f) bin ty).bin.bits = some 32) ∧
    (f.mach = bfd_mach_x86_64 →
       (load_binary_bfd flag fname (some f) bin ty).bin.arch = some BinaryArch.ARCH_X86 ∧
       (load_binary_bfd flag fname (some f) bin ty).bin.bits = some 64) ∧
    (f.mach ≠ bfd_mach_i386_i386 → f.mach ≠ bfd_mach_x86_64 →
       (load_binary_bfd flag fname (some f) bin ty).ret = -1 ∧
       (load_binary_bfd flag fname (some f) bin ty).bin.arch = bin.arch ∧
       (load_binary_bfd flag fname (some f) bin ty).bin.bits = bin.bits ∧
       Event.diag Diag.unsupportedArch ∈
         (load_binary_bfd flag fname (some f) bin ty).events) := by
  have hred : ∀ P : LoadOut → Prop,
      (∀ b, P (load_binary_bfd.loadBinaryArch (open_bfd flag (some f)) f
        { bin with filename := some fname, entry := some f.startAddress,
                   type_str := some f.xvecName, type := some b })) →
      P (load_binary_bfd flag fname (some f) bin ty) := by
    intro P hP
    rcases hflav with hf | hf
    · rw [load_binary_bfd_elf flag fname f bin ty hobj hf]; exact hP _
    · rw [load_binary_bfd_coff flag fname f bin ty hobj hf]; exact hP _
  refine ⟨fun hm => ?_, fun hm => ?_, fun hm1 hm2 => ?_⟩
  · refine hred (fun r => r.bin.arch = some BinaryArch.ARCH_X86 ∧ r.bin.bits = some 32)
      (fun b => ?_)
    simp [loadBinaryArch_i386 _ _ _ hm, loadBinaryTail_arch, loadBinaryTail_bits]
  · refine hred (fun r => r.bin.arch = some BinaryArch.ARCH_X86 ∧ r.bin.bits = some 64)
      (fun b => ?_)
    simp [loadBinaryArch_x86_64 _ _ _ hm, loadBinaryTail_arch, loadBinaryTail_bits]
  · refine hred (fun r => r.ret = -1 ∧ r.bin.arch = bin.arch ∧ r.bin.bits = bin.bits ∧
      Event.diag Diag.unsupportedArch ∈ r.events) (fun b => ?_)
    simp [loadBinaryArch_other _ _ _ hm1 hm2]

/-- Witness for `c3_arch_resolver_mapping` at a concrete 32-bit i386 ELF
file. -/
theorem c3_arch_resolver_mapping_witness :
    fileI386.isObject = true ∧
    (fileI386.flavour = BfdFlavour.elf ∨ fileI386.flavour = BfdFlavour.coff) ∧
    fileI386.mach = bfd_mach_i386_i386 ∧
    ((load_binary_bfd false "a32.out" (some fileI386) Binary.empty
        BinaryType.BIN_TYPE_AUTO).bin.arch = some BinaryArch.ARCH_X86 ∧
     (load_binary_bfd false "a32.out" (some fileI386) Binary.empty
        BinaryType.BIN_TYPE_AUTO).bin.bits = some 32) :=
  ⟨rfl, Or.inl rfl, rfl,
   (c3_arch_resolver_mapping false "a32.out" fileI386 Binary.empty
      BinaryType.BIN_TYPE_AUTO rfl (Or.inl rfl)).1 rfl⟩

/-- Claim C4: for every opened handle (an object file whose flavour the
probe accepted, i.e. not unknown), the flavour is mapped to the
normalized binary type: ELF flavour yields `BIN_TYPE_ELF`, COFF flavour
yields `BIN_TYPE_PE`, and any other flavour makes the load fail
(status −1) with the unsupported-container diagnostic and without
assigning a type. -/
theorem c4_container_flavour_mapping (flag : Bool) (fname : String) (f : BfdFile)
    (bin : Binary) (ty : BinaryType)
    (hobj : f.isObject = true) (hne : f.flavour ≠ BfdFlavour.unknown) :
    (f.flavour = BfdFlavour.elf →
       (load_binary_bfd flag fname (some f) bin ty).bin.type = some BinaryType.BIN_TYPE_ELF) ∧
    (f.flavour = BfdFlavour.coff →
       (load_binary_bfd flag fname (some f) bin ty).bin.type = some BinaryType.BIN_TYPE_PE) ∧
    (f.flavour ≠ BfdFlavour.elf → f.flavour ≠ BfdFlavour.coff →
       (load_binary_bfd flag fname (some f) bin ty).ret = -1 ∧
       (load_binary_bfd flag fname (some f) bin ty).bin.type = bin.type ∧
       Event.diag Diag.unsupportedType ∈
         (load_binary_bfd flag fname (some f) bin ty).events) := by
  refine ⟨fun hf => ?_, fun hf => ?_, fun h2 h3 => ?_⟩
  · rw [load_binary_bfd_elf flag fname f bin ty hobj hf, loadBinaryArch_type]
  · rw [load_binary_bfd_coff flag fname f bin ty hobj hf, loadBinaryArch_type]
  · rw [load_binary_bfd_other_flavour flag fname f bin ty hobj hne h2 h3]
    exact ⟨rfl, rfl, by simp⟩

/-- Witness for `c4_container_flavour_mapping` at a concrete Mach-O
flavoured file (neither ELF nor COFF): the load fails and no type is
assigned. -/
theorem c4_container_flavour_mapping_witness :
    fileMachO.isObject = true ∧ fileMachO.flavour ≠ BfdFlavour.unknown ∧
    fileMachO.flavour ≠ BfdFlavour.elf ∧ fileMachO.flavour ≠ BfdFlavour.coff ∧
    ((load_binary_bfd false "a.bin" (some fileMachO) Binary.empty
        BinaryType.BIN_TYPE_AUTO).ret = -1 ∧
     (load_binary_bfd false "a.bin" (some fileMachO) Binary.empty
        BinaryType.BIN_TYPE_AUTO).bin.type = Binary.empty.type ∧
     Event.diag Diag.unsupportedType ∈
       (load_binary_bfd false "a.bin" (some fileMachO) Binary.empty
          BinaryType.BIN_TYPE_AUTO).events) :=
  ⟨rfl, by decide, by decide, by decide,
   (c4_container_flavour_mapping false "a.bin" fileMachO Binary.empty
      BinaryType.BIN_TYPE_AUTO rfl (by decide)).2.2 (by decide) (by decide)⟩

/-- Claim C7: in the orchestrator, symbol-extraction failure is
recoverable while section-extraction failure is fatal: for a load that
reaches the extraction stages, a failing symbol-table size query still
yields overall success provided sections load, whereas a failing section
extraction forces the failure status. -/
theorem c7_symbols_recoverable_sections_fatal (flag : Bool) (fname : String)
    (f : BfdFile) (bin : Binary) (ty : BinaryType)
    (hobj : f.isObject = true)
    (hflav : f.flavour = BfdFlavour.elf ∨ f.flavour = BfdFlavour.coff)
    (hmach : f.mach = bfd_mach_i386_i386 ∨ f.mach = bfd_mach_x86_64) :
    (f.symtabUpperBound < 0 → 0 ≤ f.sectionsResult →
       (load_binary_bfd flag fname (some f) bin ty).ret = 0) ∧
    (f.sectionsResult < 0 →
       (load_binary_bfd flag fname (some f) bin ty).ret = -1) := by
  have hret : (load_binary_bfd flag fname (some f) bin ty).ret =
      if f.sectionsResult < 0 then -1 else 0 := by
    rcases hflav with hf | hf <;> rcases hmach with hm | hm
    · rw [load_binary_bfd_elf flag fname f bin ty hobj hf,
        loadBinaryArch_i386 _ _ _ hm, loadBinaryTail_ret]
    · rw [load_binary_bfd_elf flag fname f bin ty hobj hf,
        loadBinaryArch_x86_64 _ _ _ hm, loadBinaryTail_ret]
    · rw [load_binary_bfd_coff flag fname f bin ty hobj hf,
        loadBinaryArch_i386 _ _ _ hm, loadBinaryTail_ret]
    · rw [load_binary_bfd_coff flag fname f bin ty hobj hf,
        loadBinaryArch_x86_64 _ _ _ hm, loadBinaryTail_ret]
  constructor
  · intro _ hsec
    rw [hret, if_neg (not_lt.mpr hsec)]
  · intro hsec
    rw [hret, if_pos hsec]

/-- Witness for `c7_symbols_recoverable_sections_fatal` at a concrete
file whose symbol-table size query fails but whose sections load: the
overall load still succeeds. -/
theorem c7_symbols_recoverable_sections_fatal_witness :
    fileSymFail.isObject = true ∧
    (fileSymFail.flavour = BfdFlavour.elf ∨ fileSymFail.flavour = BfdFlavour.coff) ∧
    (fileSymFail.mach = bfd_mach_i386_i386 ∨ fileSymFail.mach = bfd_mach_x86_64) ∧
    fileSymFail.symtabUpperBound < 0 ∧ (0:Int) ≤ fileSymFail.sectionsResult ∧
    (load_binary_bfd false "s.out" (some fileSymFail) Binary.empty
       BinaryType.BIN_TYPE_AUTO).ret = 0 :=
  ⟨rfl, Or.inl rfl, Or.inr rfl, by decide, by decide,
   (c7_symbols_recoverable_sections_fatal false "s.out" fileSymFail Binary.empty
      BinaryType.BIN_TYPE_AUTO rfl (Or.inl rfl) (Or.inr rfl)).1 (by decide) (by decide)⟩

/-- Claim C5: in symbol extraction, a negative result of the
symbol-table size query is a hard failure (status −1, nothing changed),
while a size of exactly zero is not an error: the extractor returns
success and the symbol sequence is left exactly as it was (so an
initially empty sequence stays empty — the stripped-binary case). -/
theorem c5_size_query_negative_vs_zero (f : BfdFile) (bin : Binary) :
    (f.symtabUpperBound < 0 →
       (load_symbols_bfd f bin).ret = -1 ∧ (load_symbols_bfd f bin).bin = bin) ∧
    (f.symtabUpperBound = 0 →
       (load_symbols_bfd f bin).ret = 0 ∧
       (load_symbols_bfd f bin).bin.symbols = bin.symbols) := by
  constructor
  · intro h
    rw [load_symbols_bfd, if_pos h]
    exact ⟨rfl, rfl⟩
  · intro h
    rw [load_symbols_bfd, if_neg (by omega), if_neg (not_not.mpr h)]
    exact ⟨rfl, rfl⟩

/-- Witness for `c5_size_query_negative_vs_zero`: a failing size query
on `fileSymFail` and a stripped binary `fileStripped`. -/
theorem c5_size_query_negative_vs_zero_witness :
    fileSymFail.symtabUpperBound < 0 ∧
    ((load_symbols_bfd fileSymFail Binary.empty).ret = -1 ∧
     (load_symbols_bfd fileSymFail Binary.empty).bin = Binary.empty) ∧
    fileStripped.symtabUpperBound = 0 ∧
    ((load_symbols_bfd fileStripped Binary.empty).ret = 0 ∧
     (load_symbols_bfd fileStripped Binary.empty).bin.symbols = Binary.empty.symbols) :=
  ⟨by decide,
   (c5_size_query_negative_vs_zero fileSymFail Binary.empty).1 (by decide),
   rfl,
   (c5_size_query_negative_vs_zero fileStripped Binary.empty).2 rfl⟩

/-- Claim C6: for every successfully canonicalized symbol table, the
extractor succeeds and appends to the symbol sequence exactly the
subsequence of table entries flagged as function symbols, in table
order, each normalized to a `Symbol` carrying the entry's name, its
resolved value as address, and the function kind; all other entries are
discarded. -/
theorem c6_function_symbol_subsequence (f : BfdFile) (bin : Binary)
    (tbl : List BfdSymInfo)
    (h1 : 0 < f.symtabUpperBound) (h2 : f.mallocOk = true)
    (h3 : f.canonSymtab = some tbl) :
    (load_symbols_bfd f bin).ret = 0 ∧
    (load_symbols_bfd f bin).bin.symbols = bin.symbols ++ funcSyms tbl := by
  have hn : ¬ f.symtabUpperBound < 0 := by omega
  have hnz : f.symtabUpperBound ≠ 0 := by omega
  simp [load_symbols_bfd, hn, hnz, h2, h3, symLoop_eq]

/-- Witness for `c6_function_symbol_subsequence` at `baseFile`, whose
table holds one function entry and one data entry: only the function
entry survives, normalized. -/
theorem c6_function_symbol_subsequence_witness :
    (0:Int) < baseFile.symtabUpperBound ∧ baseFile.mallocOk = true ∧
    baseFile.canonSymtab =
      some [⟨16, "main", 0x401000⟩, ⟨0, "data_obj", 0x601000⟩] ∧
    ((load_symbols_bfd baseFile Binary.empty).ret = 0 ∧
     (load_symbols_bfd baseFile Binary.empty).bin.symbols =
       Binary.empty.symbols ++
         funcSyms [⟨16, "main", 0x401000⟩, ⟨0, "data_obj", 0x601000⟩]) :=
  ⟨by decide, rfl, rfl,
   c6_function_symbol_subsequence baseFile Binary.empty
     [⟨16, "main", 0x401000⟩, ⟨0, "data_obj", 0x601000⟩] (by decide) rfl rfl⟩

/-- Claim C8, counterexample: two loads that fail for different kinds
(the path does not open at all, versus an unsupported architecture — the
distinct diagnostics witness the distinct kinds) return the identical
classification value −1 through the public load operation, so the error
returned to the caller is not distinguishable by kind. -/
theorem c8_failures_return_same_value :
    (load_binary false "missing.bin" none Binary.empty
        BinaryType.BIN_TYPE_AUTO).ret = -1 ∧
    (load_binary false "a.out" (some fileUnsupportedArch) Binary.empty
        BinaryType.BIN_TYPE_AUTO).ret = -1 ∧
    Event.diag Diag.openError ∈
      (load_binary false "missing.bin" none Binary.empty
          BinaryType.BIN_TYPE_AUTO).events ∧
    Event.diag Diag.unsupportedArch ∈
      (load_binary false "a.out" (some fileUnsupportedArch) Binary.empty
          BinaryType.BIN_TYPE_AUTO).events ∧
    (load_binary false "missing.bin" none Binary.empty
        BinaryType.BIN_TYPE_AUTO).ret =
      (load_binary false "a.out" (some fileUnsupportedArch) Binary.empty
          BinaryType.BIN_TYPE_AUTO).ret :=
  ⟨rfl, rfl, by decide, by decide, rfl⟩

/-- Claim C8, amended: the public load operation returns only a
two-valued status — 0 on success, −1 on every failure; failure kinds are
distinguishable only in the diagnostics printed to stderr, not in the
value returned to the caller. -/
theorem c8_status_is_boolean (flag : Bool) (fname : String)
    (file : Option BfdFile) (bin : Binary) (ty : BinaryType) :
    (load_binary flag fname file bin ty).ret = 0 ∨
    (load_binary flag fname file bin ty).ret = -1 := by
  unfold load_binary
  cases file with
  | none =>
      rw [load_binary_bfd_none]
      exact Or.inr rfl
  | some f =>
      cases hobj : f.isObject with
      | false =>
          rw [load_binary_bfd_not_object flag fname f bin ty hobj]
          exact Or.inr rfl
      | true =>
          cases hfv : f.flavour with
          | unknown =>
              rw [load_binary_bfd_unknown_flavour flag fname f bin ty hobj hfv]
              exact Or.inr rfl
          | machO =>
              rw [load_binary_bfd_other_flavour flag fname f bin ty hobj
                (by simp [hfv]) (by simp [hfv]) (by simp [hfv])]
              exact Or.inr rfl
          | msdos =>
              rw [load_binary_bfd_other_flavour flag fname f bin ty hobj
                (by simp [hfv]) (by simp [hfv]) (by simp [hfv])]
              exact Or.inr rfl
          | elf =>
              rw [load_binary_bfd_elf flag fname f bin ty hobj hfv]
              exact loadBinaryArch_retCases _ _ _
          | coff =>
              rw [load_binary_bfd_coff flag fname f bin ty hobj hfv]
              exact loadBinaryArch_retCases _ _ _

/-- Claim C9: across any number of `open_bfd` calls starting with the
process-start flag value, library initialization runs exactly once: the
very first emitted event of the whole trace is the initialization (it
precedes the first `bfd_openr`), and no later call repeats it. -/
theorem c9_library_init_exactly_once (files : List (Option BfdFile))
    (hne : files ≠ []) :
    (runOpens false files).count Event.initLib = 1 ∧
    (runOpens false files).head? = some Event.initLib := by
  cases files with
  | nil => exact absurd rfl hne
  | cons f rest =>
      obtain ⟨t, ht, hc⟩ := open_bfd_false_events f
      simp only [runOpens]
      rw [open_bfd_initFlag, ht, List.cons_append]
      refine ⟨?_, rfl⟩
      rw [List.count_cons_self, List.count_append, hc, runOpens_true_count]

/-- Witness for `c9_library_init_exactly_once` on a concrete sequence of
two opens (one succeeding, one failing). -/
theorem c9_library_init_exactly_once_witness :
    ([some baseFile, none] : List (Option BfdFile)) ≠ [] ∧
    (runOpens false [some baseFile, none]).count Event.initLib = 1 ∧
    (runOpens false [some baseFile, none]).head? = some Event.initLib :=
  ⟨List.cons_ne_nil _ _,
   c9_library_init_exactly_once [some baseFile, none] (List.cons_ne_nil _ _)⟩

/-- Claim C10 (frame property): static symbol extraction only appends to
the symbol sequence — on every path, success or failure, all other
fields of the `Binary` are unchanged and the prior symbols are preserved
as a prefix of the resulting sequence. -/
theorem c10_symbol_extractor_frame (f : BfdFile) (bin : Binary) :
    (load_symbols_bfd f bin).bin.filename = bin.filename ∧
    (load_symbols_bfd f bin).bin.entry = bin.entry ∧
    (load_symbols_bfd f bin).bin.type = bin.type ∧
    (load_symbols_bfd f bin).bin.type_str = bin.type_str ∧
    (load_symbols_bfd f bin).bin.arch = bin.arch ∧
    (load_symbols_bfd f bin).bin.arch_str = bin.arch_str ∧
    (load_symbols_bfd f bin).bin.bits = bin.bits ∧
    (load_symbols_bfd f bin).bin.sections = bin.sections ∧
    ∃ t, (load_symbols_bfd f bin).bin.symbols = bin.symbols ++ t := by
  obtain ⟨t, ht⟩ := load_symbols_bfd_bin f bin
  rw [ht]
  exact ⟨rfl, rfl, rfl, rfl, rfl, rfl, rfl, rfl, t, rfl⟩

end BinInfo
